import Mathlib

/-!
Verification development for the asset-search subsystem: the query
parser / predicate compiler (`SearchQueryParser` in
`backend/apps/asset/services/search_service.py`), the search executor's
SQL assembly (`AssetSearchService.search` / `search_iter`), and the
materialized-view refresh governor (`SearchRefreshService` in
`backend/apps/asset/services/search_refresh_service.py`).

The Python code is shallowly embedded: queries are `List Char`, SQL
parameters are an explicit `Param` type (the Python code passes either
`str` or `int` values), the database's singleton refresh-status row is
an explicit `Option RefreshRow` value threaded through the governor
operations, and fallible external effects (the refresh statement) are
explicit inputs.  Python's `\w` / `\s` character classes and
`str.lower()` are modelled over ASCII, which covers every character the
query grammar distinguishes.
-/

/-- Python `\w` (word character), ASCII fragment: letters, digits, underscore. -/
def isWordChar (c : Char) : Bool := c.isAlphanum || c = '_'

/-- Python `\s` (whitespace), ASCII fragment: the six whitespace characters. -/
def isPySpace (c : Char) : Bool :=
  c = ' ' || c = '\t' || c = '\n' || c = '\r' || c = '\x0b' || c = '\x0c'

/-- Python `str.strip()`: remove leading and trailing whitespace. -/
def stripChars (cs : List Char) : List Char :=
  ((cs.dropWhile isPySpace).reverse.dropWhile isPySpace).reverse

/-- Python `str.lower()`, ASCII fragment. -/
def lowerChars (cs : List Char) : List Char := cs.map Char.toLower

/-- Python `int(value)` on a `str`: optional surrounding whitespace, optional
single sign, then digits possibly separated by single underscores.
Returns `none` where Python raises `ValueError`. -/
def pyDigitsGo (acc : Nat) : List Char → Option Nat
  | [] => some acc
  | c :: rest =>
    if c.isDigit then pyDigitsGo (acc * 10 + (c.toNat - 48)) rest
    else if c = '_' then
      match rest with
      | c2 :: rest2 =>
        if c2.isDigit then pyDigitsGo (acc * 10 + (c2.toNat - 48)) rest2 else none
      | [] => none
    else none

/-- Digit run (with single interior underscores) of Python `int`. -/
def pyDigits : List Char → Option Nat
  | [] => none
  | c :: rest => if c.isDigit then pyDigitsGo (c.toNat - 48) rest else none

/-- Python `int(value)`: sign handling on the stripped text. -/
def pyIntOpt (s : String) : Option Int :=
  match stripChars s.data with
  | '+' :: rest => (pyDigits rest).map Int.ofNat
  | '-' :: rest => (pyDigits rest).map (fun n => -(n : Int))
  | cs => (pyDigits cs).map Int.ofNat

/-- The tail of `CONDITION_PATTERN`: after the field name and optional
whitespace comes the already-recognized operator `op`, then `\s*"([^"]*)"`.
Returns the captured groups and the remaining input. -/
def matchValueTail (field : List Char) (op : String) (r : List Char) :
    Option (String × String × String × List Char) :=
  match r.dropWhile isPySpace with
  | '"' :: r3 =>
    (match r3.dropWhile (fun c => !(c = '"')) with
     | '"' :: r4 => some (⟨field⟩, op, ⟨r3.takeWhile (fun c => !(c = '"'))⟩, r4)
     | _ => none)
  | _ => none

/-- `CONDITION_PATTERN.match` at the start of the input:
the anchored semantics of the Python regex `(\w+)\s*(==|!=|=)\s*"([^"]*)"`.
For this pattern greedy maximal munch plus ordered alternation coincides
with Python's backtracking search, because `\w`, `\s`, the operator
characters and `"` are pairwise disjoint character classes. -/
def condition_match (cs : List Char) : Option (String × String × String × List Char) :=
  let field := cs.takeWhile isWordChar
  if field = [] then none
  else
    match (cs.dropWhile isWordChar).dropWhile isPySpace with
    | '=' :: '=' :: r => matchValueTail field "==" r
    | '!' :: '=' :: r => matchValueTail field "!=" r
    | '=' :: r => matchValueTail field "=" r
    | _ => none

/-- `CONDITION_PATTERN.search`: does the pattern match at some position? -/
def condition_search : List Char → Bool
  | [] => false
  | c :: rest => (condition_match (c :: rest)).isSome || condition_search rest

/-- One emitted part of the quote-aware splitter: Python appends
`current.strip()` when it is non-empty. -/
def emitPart (cur : List Char) : List (List Char) :=
  if stripChars cur = [] then [] else [stripChars cur]

/-- The scanning loop shared by `_split_by_or` and `_split_by_and`
(the two Python methods are textually identical up to the delimiter
character, `|` resp. `&`): a left-to-right scan with an `in_quotes`
boolean toggled at each `"`; a doubled delimiter outside quotes ends the
current part.  A lone trailing delimiter character is ordinary text. -/
def splitScan (dl : Char) : Bool → List Char → List Char → List (List Char)
  | _, cur, [] => emitPart cur
  | _, cur, [c] => emitPart (cur ++ [c])
  | inQ, cur, c :: c2 :: rest =>
    if c = '"' then splitScan dl (!inQ) (cur ++ ['"']) (c2 :: rest)
    else if !inQ && c = dl && c2 = dl then emitPart cur ++ splitScan dl inQ [] rest
    else splitScan dl inQ (cur ++ [c]) (c2 :: rest)

/-- Quote-aware split; Python returns `[query]` when no part was emitted. -/
def split_quote_aware (dl : Char) (query : List Char) : List (List Char) :=
  match splitScan dl false [] query with
  | [] => [query]
  | parts => parts

/-- `SearchQueryParser._split_by_or`. -/
def split_by_or (query : List Char) : List (List Char) := split_quote_aware '|' query

/-- `SearchQueryParser._split_by_and`. -/
def split_by_and (query : List Char) : List (List Char) := split_quote_aware '&' query

/-- `condition.startswith('(') and condition.endswith(')')` →
`condition[1:-1].strip()`, as done in `_parse_condition` and
`_parse_and_group`. -/
def strip_outer_parens (cs : List Char) : List Char :=
  if cs.head? = some '(' ∧ cs.getLast? = some ')' then stripChars (cs.drop 1).dropLast
  else cs

/-- A bound SQL parameter: the Python parameter lists hold `str` or `int`. -/
inductive Param where
  | s (v : String)
  | i (n : Int)
deriving DecidableEq

/-- `FIELD_MAPPING`: allow-listed query fields → database columns. -/
def FIELD_MAPPING (f : String) : Option String :=
  if f = "host" then some "host"
  else if f = "url" then some "url"
  else if f = "title" then some "title"
  else if f = "tech" then some "tech"
  else if f = "status" then some "status_code"
  else if f = "body" then some "response_body"
  else if f = "header" then some "response_headers"
  else none

/-- `field in ARRAY_FIELDS` with `ARRAY_FIELDS = {'tech'}`. -/
def is_array_field (f : String) : Bool := f = "tech"

/-- `SearchQueryParser._build_like_condition`. -/
def build_like_condition (field : String) (value : String) (isArray : Bool) :
    String × List Param :=
  if isArray then
    ("EXISTS (SELECT 1 FROM unnest(t." ++ field ++ ") AS elem WHERE elem ILIKE %s)",
     [Param.s ("%" ++ value ++ "%")])
  else if field = "status_code" then
    match pyIntOpt value with
    | some n => ("v." ++ field ++ " = %s", [Param.i n])
    | none => ("v." ++ field ++ "::text ILIKE %s", [Param.s ("%" ++ value ++ "%")])
  else
    ("v." ++ field ++ " ILIKE %s", [Param.s ("%" ++ value ++ "%")])

/-- `SearchQueryParser._build_exact_condition`. -/
def build_exact_condition (field : String) (value : String) (isArray : Bool) :
    String × List Param :=
  if isArray then
    ("%s = ANY(t." ++ field ++ ")", [Param.s value])
  else if field = "status_code" then
    match pyIntOpt value with
    | some n => ("v." ++ field ++ " = %s", [Param.i n])
    | none => ("v." ++ field ++ "::text = %s", [Param.s value])
  else
    ("v." ++ field ++ " = %s", [Param.s value])

/-- `SearchQueryParser._build_not_equal_condition`. -/
def build_not_equal_condition (field : String) (value : String) (isArray : Bool) :
    String × List Param :=
  if isArray then
    ("NOT (%s = ANY(t." ++ field ++ "))", [Param.s value])
  else if field = "status_code" then
    match pyIntOpt value with
    | some n => ("(v." ++ field ++ " IS NULL OR v." ++ field ++ " != %s)", [Param.i n])
    | none =>
      ("(v." ++ field ++ " IS NULL OR v." ++ field ++ "::text != %s)", [Param.s value])
  else
    ("(v." ++ field ++ " IS NULL OR v." ++ field ++ " != %s)", [Param.s value])

/-- `SearchQueryParser._parse_condition`: strip, drop one wrapping pair of
parentheses, match the condition pattern, validate the field against the
allow-list, then dispatch on the operator.  Returns `(none, [])` where the
Python returns `(None, [])`. -/
def parse_condition (condition : List Char) : Option String × List Param :=
  let c0 := strip_outer_parens (stripChars condition)
  match condition_match c0 with
  | none => (none, [])
  | some (field, op, value, _) =>
    let f : String := ⟨lowerChars field.data⟩
    match FIELD_MAPPING f with
    | none => (none, [])
    | some dbField =>
      let isArr := is_array_field f
      if op = "=" then
        let r := build_like_condition dbField value isArr
        (some r.1, r.2)
      else if op = "==" then
        let r := build_exact_condition dbField value isArr
        (some r.1, r.2)
      else if op = "!=" then
        let r := build_not_equal_condition dbField value isArr
        (some r.1, r.2)
      else (none, [])

/-- `SearchQueryParser._parse_and_group`: split on `&&`, parse each part,
keep the truthy clauses (clauses are never the empty string, so truthiness
is `isSome`), and degrade to `"1=1"` when nothing survived. -/
def parse_and_group (group : List Char) : String × List Param :=
  let g := strip_outer_parens (stripChars group)
  let parts := split_by_and g
  let results := parts.map (fun p => parse_condition (stripChars p))
  let andClauses := results.filterMap Prod.fst
  let allParams := (results.map (fun r => if r.1.isSome then r.2 else [])).flatten
  if andClauses = [] then ("1=1", [])
  else (String.intercalate " AND " andClauses, allParams)

/-- `SearchQueryParser.parse` over the query's characters: blank queries
compile to `"1=1"` (SQL "always true"); a query with no recognized
condition syntax becomes a bare fuzzy host search; otherwise split into
OR groups and combine. -/
def parse_query (query : List Char) : String × List Param :=
  if stripChars query = [] then ("1=1", [])
  else
    let q := stripChars query
    if !condition_search q then
      ("v.host ILIKE %s", [Param.s ("%" ++ (⟨q⟩ : String) ++ "%")])
    else
      let orGroups := split_by_or q
      match orGroups with
      | [g] => parse_and_group g
      | gs =>
        let results := gs.map parse_and_group
        let keep := results.filter (fun r => !(r.1 = "") && !(r.1 = "1=1"))
        let orClauses := keep.map (fun r => "(" ++ r.1 ++ ")")
        let allParams := (keep.map Prod.snd).flatten
        if orClauses = [] then ("1=1", [])
        else (String.intercalate " OR " orClauses, allParams)

/-- `SearchQueryParser.parse` on a `String` query. -/
def parse (query : String) : String × List Param := parse_query query.data

/-! ## Shape abstraction of the compiled predicate text

`CondKey` records everything about one condition that the emitted clause
text can depend on: the database column, the operator, and — only for the
integer-coded status column — whether the literal parses as an integer.
The literal value itself is absent. -/

structure CondKey where
  dbField : String
  op : String
  statusInt : Bool
deriving DecidableEq

/-- The abstraction of `parse_condition` to its `CondKey` (dropping the
literal value and the parameters); `none` where the condition is dropped. -/
def condKey (condition : List Char) : Option CondKey :=
  let c0 := strip_outer_parens (stripChars condition)
  match condition_match c0 with
  | none => none
  | some (field, op, value, _) =>
    let f : String := ⟨lowerChars field.data⟩
    match FIELD_MAPPING f with
    | none => none
    | some dbField =>
      if op = "=" ∨ op = "==" ∨ op = "!=" then
        some ⟨dbField, op, dbField = "status_code" ∧ (pyIntOpt value).isSome⟩
      else none

/-- The clause text determined by a `CondKey`. -/
def clauseOfKey (k : CondKey) : String :=
  let isArr := k.dbField = "tech"
  if k.op = "=" then
    if isArr then
      "EXISTS (SELECT 1 FROM unnest(t." ++ k.dbField ++ ") AS elem WHERE elem ILIKE %s)"
    else if k.dbField = "status_code" then
      if k.statusInt then "v." ++ k.dbField ++ " = %s"
      else "v." ++ k.dbField ++ "::text ILIKE %s"
    else "v." ++ k.dbField ++ " ILIKE %s"
  else if k.op = "==" then
    if isArr then "%s = ANY(t." ++ k.dbField ++ ")"
    else if k.dbField = "status_code" then
      if k.statusInt then "v." ++ k.dbField ++ " = %s"
      else "v." ++ k.dbField ++ "::text = %s"
    else "v." ++ k.dbField ++ " = %s"
  else
    if isArr then "NOT (%s = ANY(t." ++ k.dbField ++ "))"
    else if k.dbField = "status_code" then
      if k.statusInt then "(v." ++ k.dbField ++ " IS NULL OR v." ++ k.dbField ++ " != %s)"
      else "(v." ++ k.dbField ++ " IS NULL OR v." ++ k.dbField ++ "::text != %s)"
    else "(v." ++ k.dbField ++ " IS NULL OR v." ++ k.dbField ++ " != %s)"

/-- The keys of the surviving conditions of one AND group. -/
def groupKeys (group : List Char) : List CondKey :=
  (split_by_and (strip_outer_parens (stripChars group))).filterMap
    (fun p => condKey (stripChars p))

/-- The clause text of one AND group, as a function of its keys. -/
def andClauseOfKeys (ks : List CondKey) : String :=
  if ks = [] then "1=1" else String.intercalate " AND " (ks.map clauseOfKey)

/-- The value-free shape of a whole query: blank, bare text, or the
per-OR-group lists of condition keys. -/
inductive QShape where
  | blank
  | bare
  | groups (gs : List (List CondKey))
deriving DecidableEq

/-- The shape of a query, mirroring the control flow of `parse`. -/
def queryShape (query : List Char) : QShape :=
  if stripChars query = [] then .blank
  else
    let q := stripChars query
    if !condition_search q then .bare
    else .groups ((split_by_or q).map groupKeys)

/-- The predicate text determined by a shape. -/
def clauseOfShape : QShape → String
  | .blank => "1=1"
  | .bare => "v.host ILIKE %s"
  | .groups gs =>
    match gs with
    | [ks] => andClauseOfKeys ks
    | _ =>
      let cls := ((gs.map andClauseOfKeys).filter
        (fun c => !(c = "") && !(c = "1=1"))).map (fun c => "(" ++ c ++ ")")
      if cls = [] then "1=1" else String.intercalate " OR " cls

/-! ## SQL text assembled by the search executor -/

/-- The SQL text built by `AssetSearchService.search` (the f-string, with
the optional `LIMIT` suffix appended when `limit` is positive). -/
def searchSql (selectFields viewName tableName whereClause : String)
    (limit : Option Int) : String :=
  let base := "\n            SELECT " ++ selectFields
    ++ "\n            FROM " ++ viewName ++ " v"
    ++ "\n            JOIN " ++ tableName ++ " t ON v.id = t.id"
    ++ "\n            WHERE " ++ whereClause
    ++ "\n            ORDER BY v.created_at DESC"
    ++ "\n        "
  match limit with
  | some l => if l > 0 then base ++ " LIMIT " ++ toString l else base
  | none => base

/-- The SQL text built for each window by `AssetSearchService.search_iter`. -/
def searchIterSql (selectFields viewName tableName whereClause : String)
    (batchSize offset : Int) : String :=
  "\n                    SELECT " ++ selectFields
    ++ "\n                    FROM " ++ viewName ++ " v"
    ++ "\n                    JOIN " ++ tableName ++ " t ON v.id = t.id"
    ++ "\n                    WHERE " ++ whereClause
    ++ "\n                    ORDER BY v.created_at DESC"
    ++ "\n                    LIMIT " ++ toString batchSize
    ++ " OFFSET " ++ toString offset
    ++ "\n                "

/-! ## Record model and SQL evaluation semantics

The repository only emits SQL text; the meaning of the emitted templates
is PostgreSQL's.  The evaluators below are modelled from standard SQL
semantics (three-valued logic, `Option Bool` with `none` = SQL NULL /
unknown): `ILIKE` is case-insensitive `LIKE` with `%`/`_` wildcards,
`x = ANY(arr)` over a NULL array is NULL, `EXISTS` over `unnest` of a
NULL array is false (zero rows), and a `WHERE` clause keeps a row only
when the predicate is exactly true. -/

/-- A row as seen by the compiled predicates: the joined view/table
columns the verified claims touch.  `none` is SQL NULL. -/
structure AssetRow where
  id : Nat
  created_at : Int
  host : Option String
  status_code : Option Int
  tech : Option (List String)
deriving DecidableEq

/-- SQL `LIKE` pattern matching: `%` matches any sequence, `_` any single
character, other characters literally (escape sequences are not modelled;
the theorems below only instantiate wildcard-free values). -/
def likeMatch : List Char → List Char → Bool
  | [], t => t.isEmpty
  | c :: p, t =>
    if c = '%' then t.tails.any (fun s => likeMatch p s)
    else
      match t with
      | [] => false
      | c2 :: t2 => (decide (c = '_') || decide (c2 = c)) && likeMatch p t2

/-- SQL `text ILIKE pattern`: case-insensitive `LIKE`. -/
def sqlIlike (text pattern : String) : Bool :=
  likeMatch (lowerChars pattern.data) (lowerChars text.data)

/-- `w` occurs at the start of `t`. -/
def startsLit : List Char → List Char → Bool
  | [], _ => true
  | _ :: _, [] => false
  | c :: w, c2 :: t => decide (c = c2) && startsLit w t

/-- `w` occurs somewhere inside `t` (substring containment). -/
def containsLit (w : List Char) : List Char → Bool
  | [] => w.isEmpty
  | c :: t => startsLit w (c :: t) || containsLit w t

/-- Case-insensitive substring containment: the needle occurs in the hay
after case folding. -/
def ciContains (hay needle : String) : Bool :=
  containsLit (lowerChars needle.data) (lowerChars hay.data)

/-- SQL `NOT` in three-valued logic. -/
def sqlNot : Option Bool → Option Bool := Option.map not

/-- SQL `OR` in three-valued logic. -/
def sqlOr : Option Bool → Option Bool → Option Bool
  | some true, _ => some true
  | _, some true => some true
  | some false, some false => some false
  | _, _ => none

/-- A SQL `WHERE` clause keeps a row iff the predicate is exactly true. -/
def whereKeeps (p : Option Bool) : Bool :=
  match p with
  | some true => true
  | _ => false

/-- Semantics of the emitted template
`EXISTS (SELECT 1 FROM unnest(t.f) AS elem WHERE elem ILIKE %s)` with
parameter `%value%`: a NULL array unnests to zero rows (EXISTS is false,
not NULL); otherwise true iff some element matches the pattern. -/
def evalArrayLike (arr : Option (List String)) (value : String) : Option Bool :=
  match arr with
  | none => some false
  | some xs => some (xs.any (fun e => sqlIlike e ("%" ++ value ++ "%")))

/-- Semantics of the emitted template `%s = ANY(t.f)`: NULL (unknown) on a
NULL array, else exact element membership. -/
def evalArrayEq (arr : Option (List String)) (value : String) : Option Bool :=
  match arr with
  | none => none
  | some xs => some (xs.contains value)

/-- Semantics of the emitted template `NOT (%s = ANY(t.f))`. -/
def evalArrayNe (arr : Option (List String)) (value : String) : Option Bool :=
  sqlNot (evalArrayEq arr value)

/-- Semantics of the emitted template `(v.f IS NULL OR v.f != %s)` on the
integer-coded status column: true on NULL, else a known comparison. -/
def evalIntNeNull (s : Option Int) (n : Int) : Option Bool :=
  match s with
  | none => some true
  | some x => some (decide (¬ x = n))

/-- Semantics of the emitted template `(v.f IS NULL OR v.f != %s)` on a
text column. -/
def evalTextNeNull (s : Option String) (v : String) : Option Bool :=
  match s with
  | none => some true
  | some x => some (decide (¬ x = v))

/-! ## Result ordering model for the search executor

The emitted queries order solely by `ORDER BY v.created_at DESC`; SQL
leaves the relative order of equal-key rows unspecified, so an execution
may return any permutation of the matching rows that is sorted by
creation time descending. -/

/-- The ordering the emitted `ORDER BY v.created_at DESC` guarantees. -/
def orderedByCreatedDesc (l : List AssetRow) : Prop :=
  l.Pairwise (fun a b => b.created_at ≤ a.created_at)

/-- The ordering claimed by the specification: creation time descending
with ties broken by identifier descending (a strict total order). -/
def claimedSearchOrder (l : List AssetRow) : Prop :=
  l.Pairwise (fun a b =>
    b.created_at < a.created_at ∨ (b.created_at = a.created_at ∧ b.id < a.id))

/-- Modelled from the SQL semantics of the emitted query: `out` is a
possible result list of running the compiled search over the rows `db`
(filtering is not modelled here; `db` stands for the matching rows). -/
def validSearchOutput (db out : List AssetRow) : Prop :=
  db.Perm out ∧ orderedByCreatedDesc out

/-! ## Refresh governor (`SearchRefreshService`)

The singleton `asset_search_refresh_status` row is explicit
(`Option RefreshRow`; `none` models the absent row, in which case the
Python `UPDATE ... WHERE id = 1` statements affect nothing and the
`SELECT ... WHERE id = 1` reads fetch no row).  Wall-clock instants and
durations are integers.  Exception handling in the Python methods is
embedded as totality: every operation returns a value to its caller. -/

/-- The singleton refresh-status row. -/
structure RefreshRow where
  needs_refresh : Bool
  last_refresh_at : Option Int
  last_refresh_duration_ms : Option Int
  updated_at : Int
deriving DecidableEq

/-- The dict returned by `SearchRefreshService.refresh_materialized_view`:
keys `success`, `duration_ms`, `error`. -/
structure RefreshResult where
  success : Bool
  duration_ms : Int
  error : Option String
deriving DecidableEq

/-- `SearchRefreshService.DEBOUNCE_SECONDS`. -/
def DEBOUNCE_SECONDS : Int := 600

/-- `SearchRefreshService.mark_needs_refresh`: single-row UPDATE setting
`needs_refresh = TRUE, updated_at = NOW()`. -/
def mark_needs_refresh (row : Option RefreshRow) (now : Int) : Option RefreshRow :=
  row.map (fun r => { r with needs_refresh := true, updated_at := now })

/-- `SearchRefreshService.check_needs_refresh`: `row[0] if row else False`. -/
def check_needs_refresh (row : Option RefreshRow) : Bool :=
  match row with
  | none => false
  | some r => r.needs_refresh

/-- `SearchRefreshService.should_refresh_with_debounce`: absent row →
false; not dirty → false; never refreshed → true; else refresh iff the
last refresh lies strictly before `now - DEBOUNCE_SECONDS`. -/
def should_refresh_with_debounce (row : Option RefreshRow) (now : Int) : Bool :=
  match row with
  | none => false
  | some r =>
    if !r.needs_refresh then false
    else
      match r.last_refresh_at with
      | none => true
      | some t => decide (t < now - DEBOUNCE_SECONDS)

/-- `SearchRefreshService.refresh_materialized_view`: `failure` is the
exception raised by the refresh/update statements (`none` = success).
On success the status row is updated (clear dirty, stamp time and
duration); on failure it is left untouched and the error and elapsed
duration are recorded in the returned result.  The Python `except` block
means the method always returns its result dict instead of raising. -/
def refresh_materialized_view (row : Option RefreshRow) (failure : Option String)
    (now duration_ms : Int) : Option RefreshRow × RefreshResult :=
  match failure with
  | some e =>
    (row, { success := false, duration_ms := duration_ms, error := some e })
  | none =>
    (row.map (fun r =>
      { r with needs_refresh := false,
               last_refresh_at := some now,
               last_refresh_duration_ms := some duration_ms,
               updated_at := now }),
     { success := true, duration_ms := duration_ms, error := none })

/-- `SearchRefreshService.get_refresh_status`: the polled status dict
(`needs_refresh`, `last_refresh_at`, `last_refresh_duration_ms`,
`updated_at`), or `None` when the row is absent. -/
def get_refresh_status (row : Option RefreshRow) :
    Option (Bool × Option Int × Option Int × Int) :=
  row.map (fun r =>
    (r.needs_refresh, r.last_refresh_at, r.last_refresh_duration_ms, r.updated_at))

/-- One admissible execution of the emitted ordering: sort the matching
rows by creation time descending. -/
def sortByCreatedDesc (db : List AssetRow) : List AssetRow :=
  List.insertionSort (fun a b => b.created_at ≤ a.created_at) db

instance : IsTotal AssetRow (fun a b => b.created_at ≤ a.created_at) :=
  ⟨fun a b => le_total b.created_at a.created_at⟩

instance : IsTrans AssetRow (fun a b => b.created_at ≤ a.created_at) :=
  ⟨fun _ _ _ hab hbc => le_trans hbc hab⟩

instance (l : List AssetRow) : Decidable (orderedByCreatedDesc l) :=
  inferInstanceAs (Decidable (l.Pairwise
    (fun a b : AssetRow => b.created_at ≤ a.created_at)))

instance (l : List AssetRow) : Decidable (claimedSearchOrder l) :=
  inferInstanceAs (Decidable (l.Pairwise (fun a b : AssetRow =>
    b.created_at < a.created_at ∨ (b.created_at = a.created_at ∧ b.id < a.id))))

instance (db out : List AssetRow) : Decidable (validSearchOutput db out) :=
  inferInstanceAs (Decidable (db.Perm out ∧ orderedByCreatedDesc out))

/-! # Supporting lemmas -/

/-- Folding any sequence of `mark_needs_refresh` calls over a present
status row keeps the row present and never touches `last_refresh_at`. -/
theorem foldl_mark_last_refresh (us : List Int) :
    ∀ r : RefreshRow, ∃ r' : RefreshRow,
      us.foldl mark_needs_refresh (some r) = some r' ∧
      r'.last_refresh_at = r.last_refresh_at := by
  induction us with
  | nil => exact fun r => ⟨r, rfl, rfl⟩
  | cons u us ih =>
    intro r
    obtain ⟨r', h1, h2⟩ := ih { r with needs_refresh := true, updated_at := u }
    exact ⟨r', h1, h2⟩

/-- The WHERE filter on a known truth value is that value. -/
theorem whereKeeps_some (b : Bool) : whereKeeps (some b) = b := by
  cases b <;> rfl

/-! # Claims -/

/-- C2: a failed refresh attempt leaves the status row untouched (dirty
flag still true, last-refresh timestamp unchanged), records the error and
elapsed duration in the returned result record, and returns that record to
the caller instead of raising (the embedding is total: the Python `except`
block always yields the result dict). -/
theorem C2_refresh_failure_keeps_dirty (r : RefreshRow) (e : String) (now dur : Int)
    (h : r.needs_refresh = true) :
    ∃ r' : RefreshRow,
      refresh_materialized_view (some r) (some e) now dur
        = (some r', { success := false, duration_ms := dur, error := some e }) ∧
      r'.needs_refresh = true ∧
      r'.last_refresh_at = r.last_refresh_at ∧
      r' = r :=
  ⟨r, rfl, h, rfl, rfl⟩

theorem C2_refresh_failure_keeps_dirty_witness :
    ∃ r' : RefreshRow,
      refresh_materialized_view (some ⟨true, some 5, none, 0⟩) (some "connection lost") 900 42
        = (some r', { success := false, duration_ms := 42, error := some "connection lost" }) ∧
      r'.needs_refresh = true ∧
      r'.last_refresh_at = some 5 ∧
      r' = ⟨true, some 5, none, 0⟩ :=
  C2_refresh_failure_keeps_dirty ⟨true, some 5, none, 0⟩ "connection lost" 900 42 rfl

/-- C7: the query `status!="200"` compiles to the null-inclusive
not-equal template with the integer 200 as its only bound parameter, and
filtering any record set with that predicate keeps exactly the records
whose status code is not 200, including those where it is NULL. -/
theorem C7_status_not_equal_null_inclusive :
    parse "status!=\"200\""
      = ("(v.status_code IS NULL OR v.status_code != %s)", [Param.i 200]) ∧
    (∀ rs : List AssetRow,
      rs.filter (fun r => whereKeeps (evalIntNeNull r.status_code 200))
        = rs.filter (fun r => decide (¬ r.status_code = some 200))) ∧
    (∀ s : Option Int, ¬ s = some 200 ↔ s = none ∨ ∃ n : Int, s = some n ∧ ¬ n = 200) := by
  refine ⟨by decide, fun rs => List.filter_congr ?_, fun s => ?_⟩
  · intro r _
    cases h : r.status_code <;> simp [whereKeeps_some, evalIntNeNull, h]
  · cases s <;> simp

theorem C7_status_not_equal_null_inclusive_witness :
    List.filter (fun r => whereKeeps (evalIntNeNull r.status_code 200))
        [(⟨1, 0, none, some 200, none⟩ : AssetRow), ⟨2, 0, none, some 404, none⟩,
         ⟨3, 0, none, none, none⟩]
      = List.filter (fun r => decide (¬ r.status_code = some 200))
        [(⟨1, 0, none, some 200, none⟩ : AssetRow), ⟨2, 0, none, some 404, none⟩,
         ⟨3, 0, none, none, none⟩] :=
  C7_status_not_equal_null_inclusive.2.1
    [⟨1, 0, none, some 200, none⟩, ⟨2, 0, none, some 404, none⟩, ⟨3, 0, none, none, none⟩]

/-- C8: the debounce decision is exactly "dirty, and either never
refreshed or strictly more than `DEBOUNCE_SECONDS` of wall-clock time
since the last completed refresh"; and no number of repeated mark-dirty
calls can make it fire while the window has not yet elapsed, because
marking dirty never touches the last-refresh timestamp. -/
theorem C8_debounce_decision (r : RefreshRow) (now : Int) :
    (should_refresh_with_debounce (some r) now = true ↔
      r.needs_refresh = true ∧
        (r.last_refresh_at = none ∨
          ∃ t : Int, r.last_refresh_at = some t ∧ DEBOUNCE_SECONDS < now - t)) ∧
    (∀ (us : List Int) (t : Int), r.last_refresh_at = some t →
      now - t ≤ DEBOUNCE_SECONDS →
      should_refresh_with_debounce (us.foldl mark_needs_refresh (some r)) now = false) := by
  constructor
  · cases hn : r.needs_refresh <;> cases hl : r.last_refresh_at <;>
      simp [should_refresh_with_debounce, hn, hl, DEBOUNCE_SECONDS] <;> omega
  · intro us t hl hwin
    have hwin6 : now - t ≤ 600 := hwin
    obtain ⟨r', h1, h2⟩ := foldl_mark_last_refresh us r
    rw [h1]
    rw [hl] at h2
    cases hn : r'.needs_refresh <;>
      simp [should_refresh_with_debounce, hn, h2, DEBOUNCE_SECONDS] <;> omega

theorem C8_debounce_decision_witness :
    (should_refresh_with_debounce (some ⟨true, some 100, none, 0⟩) 500 = true ↔
      (true : Bool) = true ∧
        ((some 100 : Option Int) = none ∨
          ∃ t : Int, (some 100 : Option Int) = some t ∧ DEBOUNCE_SECONDS < 500 - t)) ∧
    should_refresh_with_debounce
      ([(200 : Int), 300, 400].foldl mark_needs_refresh (some ⟨true, some 100, none, 0⟩)) 500
      = false :=
  ⟨(C8_debounce_decision ⟨true, some 100, none, 0⟩ 500).1,
   (C8_debounce_decision ⟨true, some 100, none, 0⟩ 500).2 [200, 300, 400] 100 rfl (by decide)⟩

/-- C9: on the array-typed technology field the compiled `!=` template is
`NOT (%s = ANY(t.tech))`; on a record whose array is NULL it evaluates to
SQL unknown, so the WHERE clause does not keep the record — asymmetric
with the scalar `!=` template `(v.f IS NULL OR v.f != %s)`, which keeps
records whose scalar field is NULL. -/
theorem C9_array_not_equal_null_asymmetry :
    (∀ v : String,
      build_not_equal_condition "tech" v true = ("NOT (%s = ANY(t.tech))", [Param.s v])) ∧
    (∀ (v : String) (r : AssetRow), r.tech = none →
      evalArrayNe r.tech v = none ∧ whereKeeps (evalArrayNe r.tech v) = false) ∧
    (∀ v : String,
      build_not_equal_condition "host" v false
        = ("(v.host IS NULL OR v.host != %s)", [Param.s v])) ∧
    (∀ (v : String) (r : AssetRow), r.host = none →
      whereKeeps (evalTextNeNull r.host v) = true) := by
  refine ⟨fun v => rfl, fun v r h => ?_, fun v => rfl, fun v r h => ?_⟩
  · rw [h]; exact ⟨rfl, rfl⟩
  · rw [h]; rfl

theorem C9_array_not_equal_null_asymmetry_witness :
    (evalArrayNe (⟨1, 0, none, none, none⟩ : AssetRow).tech "x" = none ∧
      whereKeeps (evalArrayNe (⟨1, 0, none, none, none⟩ : AssetRow).tech "x") = false) ∧
    whereKeeps (evalTextNeNull (⟨1, 0, none, none, none⟩ : AssetRow).host "x") = true :=
  ⟨C9_array_not_equal_null_asymmetry.2.1 "x" ⟨1, 0, none, none, none⟩ rfl,
   C9_array_not_equal_null_asymmetry.2.2.2 "x" ⟨1, 0, none, none, none⟩ rfl⟩

/-- C10: with the singleton status row absent, every governor read
degrades to "no refresh needed": `check_needs_refresh` and
`should_refresh_with_debounce` return false and `get_refresh_status`
returns no status. -/
theorem C10_absent_row_degrades :
    check_needs_refresh none = false ∧
    (∀ now : Int, should_refresh_with_debounce none now = false) ∧
    get_refresh_status none = none :=
  ⟨rfl, fun _ => rfl, rfl⟩

theorem C10_absent_row_degrades_witness :
    should_refresh_with_debounce none 12345 = false :=
  C10_absent_row_degrades.2.1 12345

/-- C3 counterexample: two distinct matching rows with equal creation
times.  The list that keeps the smaller identifier first satisfies
everything the emitted `ORDER BY v.created_at DESC` requires — it is a
possible result of `search`/a `search_iter` window — yet violates the
claimed ordering (ties broken by identifier descending); so the claimed
strict total order does not hold for the code's output. -/
theorem C3_counterexample_tie_order :
    validSearchOutput
      [(⟨1, 5, none, none, none⟩ : AssetRow), ⟨2, 5, none, none, none⟩]
      [(⟨1, 5, none, none, none⟩ : AssetRow), ⟨2, 5, none, none, none⟩] ∧
    ¬ claimedSearchOrder
      [(⟨1, 5, none, none, none⟩ : AssetRow), ⟨2, 5, none, none, none⟩] :=
  ⟨by decide, by decide⟩

/-- C3 amended: both `search` and `search_iter` order solely by
`ORDER BY v.created_at DESC` — creation time descending with no
identifier tie-break.  Every valid output is sorted by creation time
descending, a sorted output always exists, but the ordering is not a
strict total order: rows with equal creation times may come back in
either relative order (and hence differently in different windows). -/
theorem C3_amended_created_desc_only :
    (∀ sf vn tn wc : String, ∃ p : String,
      searchSql sf vn tn wc none = p ++ "ORDER BY v.created_at DESC" ++ "\n        ") ∧
    (searchIterSql "F" "V" "T" "W" 1000 2000
      = "\n                    SELECT F\n                    FROM V v\n                    JOIN T t ON v.id = t.id\n                    WHERE W\n                    ORDER BY v.created_at DESC\n                    LIMIT 1000 OFFSET 2000\n                ") ∧
    (∀ db : List AssetRow, validSearchOutput db (sortByCreatedDesc db)) ∧
    (∀ db out : List AssetRow, validSearchOutput db out → orderedByCreatedDesc out) ∧
    (∃ db o1 o2 : List AssetRow,
      validSearchOutput db o1 ∧ validSearchOutput db o2 ∧ o1 ≠ o2) := by
  refine ⟨?_, by rfl, ?_, ?_, ?_⟩
  · intro sf vn tn wc
    exact ⟨"\n            SELECT " ++ sf ++ "\n            FROM " ++ vn ++ " v"
      ++ "\n            JOIN " ++ tn ++ " t ON v.id = t.id"
      ++ "\n            WHERE " ++ wc ++ "\n            ",
      by simp [searchSql, String.append_assoc]⟩
  · intro db
    unfold validSearchOutput sortByCreatedDesc orderedByCreatedDesc
    exact ⟨(List.perm_insertionSort (fun a b : AssetRow => b.created_at ≤ a.created_at)
        db).symm,
      List.sorted_insertionSort (fun a b : AssetRow => b.created_at ≤ a.created_at) db⟩
  · exact fun db out h => h.2
  · exact ⟨[⟨1, 5, none, none, none⟩, ⟨2, 5, none, none, none⟩],
      [⟨1, 5, none, none, none⟩, ⟨2, 5, none, none, none⟩],
      [⟨2, 5, none, none, none⟩, ⟨1, 5, none, none, none⟩],
      by decide, by decide, by decide⟩

theorem C3_amended_created_desc_only_witness :
    orderedByCreatedDesc
      [(⟨2, 9, none, none, none⟩ : AssetRow), ⟨1, 3, none, none, none⟩] :=
  C3_amended_created_desc_only.2.2.2.1
    [⟨1, 3, none, none, none⟩, ⟨2, 9, none, none, none⟩]
    [⟨2, 9, none, none, none⟩, ⟨1, 3, none, none, none⟩]
    ⟨List.Perm.swap _ _ _, by decide⟩

/-- An element not satisfying `p` survives `dropWhile p`. -/
theorem mem_dropWhile_of_neg {c : Char} {p : Char → Bool} (hp : p c = false) :
    ∀ {cs : List Char}, c ∈ cs → c ∈ cs.dropWhile p := by
  intro cs
  induction cs with
  | nil => intro h; cases h
  | cons d ds ih =>
    intro hm
    rw [List.dropWhile_cons]
    by_cases hd : p d = true
    · simp only [hd, if_true]
      rcases List.mem_cons.mp hm with rfl | hmem
      · rw [hp] at hd; cases hd
      · exact ih hmem
    · simp only [hd, if_false]
      exact hm

/-- Characters that survive stripping witness non-emptiness of the strip. -/
theorem stripChars_ne_nil_of_mem {c : Char} {cs : List Char}
    (hm : c ∈ cs) (hs : isPySpace c = false) : stripChars cs ≠ [] := by
  intro h
  have h1 : c ∈ stripChars cs := by
    unfold stripChars
    exact List.mem_reverse.mpr (mem_dropWhile_of_neg hs
      (List.mem_reverse.mpr (mem_dropWhile_of_neg hs hm)))
  rw [h] at h1
  cases h1

/-- Unfolding equation of `splitScan` on a two-or-more element input. -/
theorem splitScan_cons_cons (dl : Char) (inQ : Bool) (cur : List Char)
    (c d : Char) (ds : List Char) :
    splitScan dl inQ cur (c :: d :: ds)
      = if c = '"' then splitScan dl (!inQ) (cur ++ ['"']) (d :: ds)
        else if !inQ && c = dl && d = dl then emitPart cur ++ splitScan dl inQ [] ds
        else splitScan dl inQ (cur ++ [c]) (d :: ds) := by
  rw [splitScan]

/-- Inside a quoted region the scan appends characters verbatim up to and
including the closing quote, regardless of delimiter occurrences. -/
theorem splitScan_in_quotes (dl : Char) (a : List Char) (ha : '"' ∉ a) :
    ∀ cur rest : List Char,
      splitScan dl true cur (a ++ '"' :: rest)
        = splitScan dl false (cur ++ a ++ ['"']) rest := by
  induction a with
  | nil =>
    intro cur rest
    cases rest with
    | nil => simp [splitScan]
    | cons r rs => simp [splitScan]
  | cons c a2 ih =>
    intro cur rest
    have hc : ¬ c = '"' := fun h => ha (h ▸ List.mem_cons_self c a2)
    obtain ⟨d, ds, hdd⟩ : ∃ d ds, a2 ++ '"' :: rest = d :: ds := by
      cases h : a2 ++ '"' :: rest with
      | nil => simp at h
      | cons d ds => exact ⟨d, ds, rfl⟩
    calc splitScan dl true cur (c :: a2 ++ '"' :: rest)
        = splitScan dl true (cur ++ [c]) (a2 ++ '"' :: rest) := by
          rw [List.cons_append, hdd, splitScan_cons_cons]
          simp [hc]
      _ = splitScan dl false ((cur ++ [c]) ++ a2 ++ ['"']) rest :=
          ih (fun h => ha (List.mem_cons_of_mem c h)) (cur ++ [c]) rest
      _ = splitScan dl false (cur ++ (c :: a2) ++ ['"']) rest := by
          simp [List.append_assoc]

/-- Outside quotes, characters that are neither quotes nor the delimiter
are appended verbatim; a single condition whose quoted value may contain
doubled delimiters is scanned into one part. -/
theorem splitScan_plain (dl : Char) (w a : List Char)
    (hw : ∀ c ∈ w, ¬ c = '"' ∧ ¬ c = dl) (ha : '"' ∉ a) :
    ∀ cur : List Char,
      splitScan dl false cur (w ++ '"' :: (a ++ ['"']))
        = emitPart (cur ++ w ++ '"' :: (a ++ ['"'])) := by
  induction w with
  | nil =>
    intro cur
    obtain ⟨d, ds, hdd⟩ : ∃ d ds, a ++ ['"'] = d :: ds := by
      cases h : a ++ ['"'] with
      | nil => simp at h
      | cons d ds => exact ⟨d, ds, rfl⟩
    calc splitScan dl false cur ([] ++ '"' :: (a ++ ['"']))
        = splitScan dl true (cur ++ ['"']) (a ++ ['"']) := by
          rw [List.nil_append, hdd, splitScan_cons_cons]
          simp
      _ = splitScan dl false ((cur ++ ['"']) ++ a ++ ['"']) [] := by
          rw [show a ++ ['"'] = a ++ '"' :: ([] : List Char) from rfl]
          exact splitScan_in_quotes dl a ha (cur ++ ['"']) []
      _ = emitPart (cur ++ [] ++ '"' :: (a ++ ['"'])) := by
          rw [splitScan]
          congr 1
          simp
  | cons c w2 ih =>
    intro cur
    have hc := hw c (List.mem_cons_self c w2)
    obtain ⟨d, ds, hdd⟩ : ∃ d ds, w2 ++ '"' :: (a ++ ['"']) = d :: ds := by
      cases h : w2 ++ '"' :: (a ++ ['"']) with
      | nil => simp at h
      | cons d ds => exact ⟨d, ds, rfl⟩
    calc splitScan dl false cur (c :: w2 ++ '"' :: (a ++ ['"']))
        = splitScan dl false (cur ++ [c]) (w2 ++ '"' :: (a ++ ['"'])) := by
          rw [List.cons_append, hdd, splitScan_cons_cons]
          simp [hc.1, hc.2]
      _ = emitPart ((cur ++ [c]) ++ w2 ++ '"' :: (a ++ ['"'])) :=
          ih (fun x hx => hw x (List.mem_cons_of_mem c hx)) (cur ++ [c])
      _ = emitPart (cur ++ (c :: w2) ++ '"' :: (a ++ ['"'])) := by
          simp [List.append_assoc]

/-- C4: quote-aware splitting — for any single condition `w"value"` whose
field-and-operator part `w` contains no quote and no delimiter character,
the quote-aware splitter never splits inside the quoted value, whatever
delimiter characters (`&&`/`||` included) the value contains: the whole
condition comes back as exactly one part.  In particular `host="a&&b"`
parses as one fuzzy host condition, not two. -/
theorem C4_quote_aware_splitting :
    (∀ (dl : Char) (w a : List Char),
      (∀ c ∈ w, ¬ c = '"' ∧ ¬ c = dl) → '"' ∉ a →
      split_quote_aware dl (w ++ '"' :: (a ++ ['"']))
        = [stripChars (w ++ '"' :: (a ++ ['"']))]) ∧
    parse "host=\"a&&b\"" = ("v.host ILIKE %s", [Param.s "%a&&b%"]) := by
  constructor
  · intro dl w a hw ha
    unfold split_quote_aware
    rw [splitScan_plain dl w a hw ha [], List.nil_append]
    unfold emitPart
    rw [if_neg (@stripChars_ne_nil_of_mem '"' (w ++ '"' :: (a ++ ['"'])) (by simp) rfl)]
  · rfl

theorem C4_quote_aware_splitting_witness :
    split_quote_aware '&' ("host=".data ++ '"' :: ("a&&b".data ++ ['"']))
      = [stripChars ("host=".data ++ '"' :: ("a&&b".data ++ ['"']))] :=
  C4_quote_aware_splitting.1 '&' "host=".data "a&&b".data (by decide) (by decide)

/-- C5: fail-open parsing — a condition whose syntax does not match the
condition pattern, or whose field is not in the allow-list, is dropped
(`(none, [])`, no error); an AND group in which every part was dropped
compiles to the always-true predicate `"1=1"`, never an always-false one;
and the lone unknown-field query `bogus="x"` compiles to match-all. -/
theorem C5_fail_open_drop :
    (∀ cs : List Char,
      condition_match (strip_outer_parens (stripChars cs)) = none →
      parse_condition cs = (none, [])) ∧
    (∀ (cs : List Char) (f op v : String) (rest : List Char),
      condition_match (strip_outer_parens (stripChars cs)) = some (f, op, v, rest) →
      FIELD_MAPPING ⟨lowerChars f.data⟩ = none →
      parse_condition cs = (none, [])) ∧
    (∀ g : List Char,
      (∀ p ∈ split_by_and (strip_outer_parens (stripChars g)),
        (parse_condition (stripChars p)).1 = none) →
      parse_and_group g = ("1=1", [])) ∧
    parse "bogus=\"x\"" = ("1=1", []) := by
  refine ⟨?_, ?_, ?_, rfl⟩
  · intro cs h
    simp [parse_condition, h]
  · intro cs f op v rest h1 h2
    simp [parse_condition, h1, h2]
  · intro g h
    have hnil : ((split_by_and (strip_outer_parens (stripChars g))).map
        (fun p => parse_condition (stripChars p))).filterMap Prod.fst = [] := by
      rw [List.filterMap_map]
      exact List.filterMap_eq_nil_iff.mpr h
    simp only [parse_and_group]
    rw [hnil]
    simp

theorem C5_fail_open_drop_witness :
    parse_and_group ("bogus=\"x\" && nope".data) = ("1=1", []) :=
  C5_fail_open_drop.2.2.1 ("bogus=\"x\" && nope".data) (by decide)

/-- The empty suffix always appears among `tails`, so matching the empty
pattern against some suffix always succeeds. -/
theorem tails_any_isEmpty (t : List Char) :
    (t.tails.any fun s => s.isEmpty) = true := by
  induction t with
  | nil => rfl
  | cons c t2 ih => rw [List.tails_cons, List.any_cons, ih, Bool.or_true]

/-- A wildcard-free pattern followed by `%` matches a text iff the
pattern is literally a prefix of the text. -/
theorem likeMatch_lit_pct (w : List Char) (hw : ∀ c ∈ w, ¬ c = '%' ∧ ¬ c = '_') :
    ∀ t : List Char, likeMatch (w ++ ['%']) t = startsLit w t := by
  induction w with
  | nil =>
    intro t
    have h1 : likeMatch ['%'] t = (t.tails.any fun s => likeMatch [] s) := by
      simp [likeMatch]
    have h2 : (fun s => likeMatch [] s) = (fun s : List Char => s.isEmpty) :=
      funext fun s => by simp [likeMatch]
    rw [List.nil_append, h1, h2, tails_any_isEmpty]
    rfl
  | cons c w2 ih =>
    intro t
    have hc := hw c (List.mem_cons_self c w2)
    cases t with
    | nil => simp [likeMatch, startsLit, hc.1]
    | cons c2 t2 =>
      by_cases hcc : c2 = c
      · subst hcc
        simp [likeMatch, startsLit, hc.1, hc.2]
        exact ih (fun x hx => hw x (List.mem_cons_of_mem _ hx)) t2
      · have hcc2 : ¬ c = c2 := fun h => hcc h.symm
        simp [likeMatch, startsLit, hc.1, hc.2, hcc, hcc2]

/-- Matching a wildcard-free pattern against every suffix is substring
containment. -/
theorem tails_any_startsLit (w : List Char) :
    ∀ t : List Char, (t.tails.any fun s => startsLit w s) = containsLit w t := by
  intro t
  induction t with
  | nil => cases w <;> rfl
  | cons c t2 ih =>
    rw [List.tails_cons, List.any_cons, ih]
    rfl

/-- A `%text%` pattern without further wildcards matches iff the text
occurs as a substring. -/
theorem likeMatch_infix (w : List Char) (hw : ∀ c ∈ w, ¬ c = '%' ∧ ¬ c = '_') :
    ∀ t : List Char, likeMatch ('%' :: (w ++ ['%'])) t = containsLit w t := by
  intro t
  have h1 : likeMatch ('%' :: (w ++ ['%'])) t
      = (t.tails.any fun s => likeMatch (w ++ ['%']) s) := by
    simp [likeMatch]
  have h2 : (fun s => likeMatch (w ++ ['%']) s) = (fun s => startsLit w s) :=
    funext fun s => likeMatch_lit_pct w hw s
  rw [h1, h2, tails_any_startsLit]

/-- `ILIKE` with the compiler's `%value%` parameter, for a value free of
SQL wildcards, is case-insensitive substring containment. -/
theorem sqlIlike_pct (e v : String)
    (hw : ∀ c ∈ lowerChars v.data, ¬ c = '%' ∧ ¬ c = '_') :
    sqlIlike e ("%" ++ v ++ "%") = ciContains e v := by
  unfold sqlIlike ciContains
  have hd : ("%" ++ v ++ "%").data = '%' :: (v.data ++ ['%']) := by
    simp [String.data_append]
  have hl : lowerChars ('%' :: (v.data ++ ['%'])) = '%' :: (lowerChars v.data ++ ['%']) := by
    simp [lowerChars]
  rw [hd, hl]
  exact likeMatch_infix (lowerChars v.data) hw (lowerChars e.data)

/-- Kleene OR on two known truth values. -/
theorem sqlOr_some (a b : Bool) : sqlOr (some a) (some b) = some (a || b) := by
  cases a <;> cases b <;> rfl

/-- C6: on the array-typed technology field, `=` compiles to the
existential `EXISTS/unnest/ILIKE` template with the single `%value%`
parameter; its semantics (for a value without SQL wildcards) is "some
array element case-insensitively contains the value" — false for a
record with no matching element, including a NULL array; and the
OR-combination `tech="vue" || tech="react"` compiles to the disjunction
of the two templates and keeps exactly the records where at least one
disjunct has a matching element. -/
theorem C6_array_like_existential :
    (∀ v : String, build_like_condition "tech" v true
      = ("EXISTS (SELECT 1 FROM unnest(t.tech) AS elem WHERE elem ILIKE %s)",
         [Param.s ("%" ++ v ++ "%")])) ∧
    (∀ (tech : Option (List String)) (v : String),
      (∀ c ∈ lowerChars v.data, ¬ c = '%' ∧ ¬ c = '_') →
      (whereKeeps (evalArrayLike tech v) = true ↔
        ∃ e ∈ tech.getD [], ciContains e v = true)) ∧
    (∀ (tech : Option (List String)) (v1 v2 : String),
      whereKeeps (sqlOr (evalArrayLike tech v1) (evalArrayLike tech v2)) = true ↔
        (whereKeeps (evalArrayLike tech v1) = true ∨
         whereKeeps (evalArrayLike tech v2) = true)) ∧
    parse "tech=\"vue\" || tech=\"react\""
      = ("(EXISTS (SELECT 1 FROM unnest(t.tech) AS elem WHERE elem ILIKE %s)) OR (EXISTS (SELECT 1 FROM unnest(t.tech) AS elem WHERE elem ILIKE %s))",
         [Param.s "%vue%", Param.s "%react%"]) ∧
    (whereKeeps (sqlOr (evalArrayLike (some ["react"]) "vue")
        (evalArrayLike (some ["react"]) "react")) = true ∧
     whereKeeps (sqlOr (evalArrayLike (some ["vue", "jquery"]) "vue")
        (evalArrayLike (some ["vue", "jquery"]) "react")) = true ∧
     whereKeeps (sqlOr (evalArrayLike (some ["angular"]) "vue")
        (evalArrayLike (some ["angular"]) "react")) = false) := by
  refine ⟨fun v => rfl, ?_, ?_, by rfl, by decide, by decide, by decide⟩
  · intro tech v hw
    cases tech with
    | none => simp [evalArrayLike, whereKeeps]
    | some xs =>
      rw [show evalArrayLike (some xs) v
          = some (xs.any fun e => sqlIlike e ("%" ++ v ++ "%")) from rfl,
        whereKeeps_some]
      rw [show (fun e => sqlIlike e ("%" ++ v ++ "%")) = fun e => ciContains e v from
        funext fun e => sqlIlike_pct e v hw]
      simp [List.any_eq_true]
  · intro tech v1 v2
    cases tech with
    | none => simp [evalArrayLike, sqlOr_some, whereKeeps]
    | some xs => simp [evalArrayLike, sqlOr_some, whereKeeps_some, Bool.or_eq_true]

theorem C6_array_like_existential_witness :
    whereKeeps (evalArrayLike (some ["react"]) "vue") = true ↔
      ∃ e ∈ (some ["react"] : Option (List String)).getD [], ciContains e "vue" = true :=
  C6_array_like_existential.2.1 (some ["react"]) "vue" (by decide)

/-- For an allow-listed field, being the array field is determined by the
mapped database column. -/
theorem FIELD_MAPPING_array (f db : String) (h : FIELD_MAPPING f = some db) :
    is_array_field f = decide (db = "tech") := by
  unfold FIELD_MAPPING at h
  unfold is_array_field
  split_ifs at h with h1 h2 h3 h4 h5 h6 h7 <;> (try cases h) <;> simp_all

/-- The fuzzy builder's clause text is a function of the condition key. -/
theorem build_like_fst (db v : String) :
    (build_like_condition db v (decide (db = "tech"))).1
      = clauseOfKey ⟨db, "=", decide (db = "status_code" ∧ (pyIntOpt v).isSome)⟩ := by
  by_cases hdb : db = "tech"
  · subst hdb; simp [build_like_condition, clauseOfKey]
  · by_cases hst : db = "status_code"
    · subst hst
      cases hint : pyIntOpt v with
      | none => simp [build_like_condition, clauseOfKey, hint]
      | some n => simp [build_like_condition, clauseOfKey, hint]
    · simp [build_like_condition, clauseOfKey, hdb, hst]

/-- The exact builder's clause text is a function of the condition key. -/
theorem build_exact_fst (db v : String) :
    (build_exact_condition db v (decide (db = "tech"))).1
      = clauseOfKey ⟨db, "==", decide (db = "status_code" ∧ (pyIntOpt v).isSome)⟩ := by
  by_cases hdb : db = "tech"
  · subst hdb; simp [build_exact_condition, clauseOfKey]
  · by_cases hst : db = "status_code"
    · subst hst
      cases hint : pyIntOpt v with
      | none => simp [build_exact_condition, clauseOfKey, hint]
      | some n => simp [build_exact_condition, clauseOfKey, hint]
    · simp [build_exact_condition, clauseOfKey, hdb, hst]

/-- The not-equal builder's clause text is a function of the condition key. -/
theorem build_ne_fst (db v : String) :
    (build_not_equal_condition db v (decide (db = "tech"))).1
      = clauseOfKey ⟨db, "!=", decide (db = "status_code" ∧ (pyIntOpt v).isSome)⟩ := by
  by_cases hdb : db = "tech"
  · subst hdb; simp [build_not_equal_condition, clauseOfKey]
  · by_cases hst : db = "status_code"
    · subst hst
      cases hint : pyIntOpt v with
      | none => simp [build_not_equal_condition, clauseOfKey, hint]
      | some n => simp [build_not_equal_condition, clauseOfKey, hint]
    · simp [build_not_equal_condition, clauseOfKey, hdb, hst]

/-- The clause text of one condition depends only on its key. -/
theorem parse_condition_fst (cs : List Char) :
    (parse_condition cs).1 = (condKey cs).map clauseOfKey := by
  cases hm : condition_match (strip_outer_parens (stripChars cs)) with
  | none => simp [parse_condition, condKey, hm]
  | some q =>
    obtain ⟨f, op, v, rest⟩ := q
    cases hf : FIELD_MAPPING ⟨lowerChars f.data⟩ with
    | none => simp [parse_condition, condKey, hm, hf]
    | some db =>
      have harr := FIELD_MAPPING_array _ _ hf
      by_cases h1 : op = "="
      · subst h1
        simp [parse_condition, condKey, hm, hf, harr, build_like_fst db v]
      · by_cases h2 : op = "=="
        · subst h2
          simp [parse_condition, condKey, hm, hf, harr, h1, build_exact_fst db v]
        · by_cases h3 : op = "!="
          · subst h3
            simp [parse_condition, condKey, hm, hf, harr, h1, h2, build_ne_fst db v]
          · simp [parse_condition, condKey, hm, hf, h1, h2, h3]

/-- The clause text of one AND group depends only on its condition keys. -/
theorem parse_and_group_fst (g : List Char) :
    (parse_and_group g).1 = andClauseOfKeys (groupKeys g) := by
  have hmap : ((split_by_and (strip_outer_parens (stripChars g))).map
      (fun p => parse_condition (stripChars p))).filterMap Prod.fst
      = ((split_by_and (strip_outer_parens (stripChars g))).filterMap
          (fun p => condKey (stripChars p))).map clauseOfKey := by
    rw [List.filterMap_map, List.map_filterMap]
    congr 1
    funext p
    simp only [Function.comp_apply]
    exact parse_condition_fst (stripChars p)
  simp only [parse_and_group, andClauseOfKeys, groupKeys, hmap]
  by_cases hks : (split_by_and (strip_outer_parens (stripChars g))).filterMap
      (fun p => condKey (stripChars p)) = []
  · simp [hks]
  · simp [hks, List.map_eq_nil_iff]

/-- The predicate text of a whole parsed query depends only on the
query's shape. -/
theorem parse_query_fst (q : List Char) :
    (parse_query q).1 = clauseOfShape (queryShape q) := by
  by_cases h0 : stripChars q = []
  · simp [parse_query, queryShape, h0, clauseOfShape]
  · by_cases h1 : condition_search (stripChars q)
    · cases horg : split_by_or (stripChars q) with
      | nil => simp [parse_query, queryShape, h0, h1, horg, clauseOfShape]
      | cons g1 tl =>
        cases tl with
        | nil =>
          simp [parse_query, queryShape, h0, h1, horg, clauseOfShape,
            parse_and_group_fst]
        | cons g2 tl2 =>
          have e1 : ∀ l : List (List Char),
              ((l.map parse_and_group).filter
                  (fun r => !(r.1 = "") && !(r.1 = "1=1"))).map
                  (fun r => "(" ++ r.1 ++ ")")
                = (((l.map groupKeys).map andClauseOfKeys).filter
                    (fun c => !(c = "") && !(c = "1=1"))).map
                    (fun c => "(" ++ c ++ ")") := by
            intro l
            induction l with
            | nil => rfl
            | cons ga tla ih =>
              simp only [List.map_cons, List.filter_cons]
              rw [parse_and_group_fst ga]
              by_cases hc : (!(andClauseOfKeys (groupKeys ga) = "")
                  && !(andClauseOfKeys (groupKeys ga) = "1=1")) = true
              · rw [if_pos hc, if_pos hc, List.map_cons, List.map_cons, ih]
                congr 1
                show "(" ++ (parse_and_group ga).1 ++ ")"
                    = "(" ++ andClauseOfKeys (groupKeys ga) ++ ")"
                rw [parse_and_group_fst ga]
              · rw [if_neg hc, if_neg hc, ih]
          have e2 := e1 (g1 :: g2 :: tl2)
          simp only [List.map_cons] at e2
          simp only [parse_query, queryShape, clauseOfShape, h0, h1, horg,
            List.map_cons, Bool.not_true, Bool.false_eq_true, ite_true,
            ite_false, if_true, if_false]
          rw [e2]
          by_cases hcl : (((andClauseOfKeys (groupKeys g1)
                :: andClauseOfKeys (groupKeys g2)
                :: (tl2.map groupKeys).map andClauseOfKeys).filter
                (fun c => !(c = "") && !(c = "1=1"))).map
                (fun c => "(" ++ c ++ ")")) = []
          · rw [if_pos hcl, if_pos hcl]
          · rw [if_neg hcl, if_neg hcl]
    · simp [parse_query, queryShape, h0, h1, clauseOfShape]

/-- C1 counterexample: two queries with the same field (`status`) and the
same operator (`=`) but different quoted values compile to different
predicate strings — the integer-coded status field switches between the
typed-equality template and the textual-ILIKE fallback depending on
whether the value parses as an integer, so the predicate text is not
identical for all value choices. -/
theorem C1_counterexample_status_value_changes_text :
    condition_match ("status=\"200\"").data = some ("status", "=", "200", []) ∧
    condition_match ("status=\"abc\"").data = some ("status", "=", "abc", []) ∧
    (parse "status=\"200\"").1 ≠ (parse "status=\"abc\"").1 :=
  ⟨rfl, rfl, by decide⟩

/-- C1 amended: the compiled predicate text is a function of the query's
shape — the grouping structure, the fields, the operators, and (for the
integer status field only) whether the value parses as an integer; the
literal values themselves never reach the predicate text and are emitted
only in the parameter list.  Two queries with equal shapes yield
identical predicate strings. -/
theorem C1_predicate_text_depends_only_on_shape (q1 q2 : String)
    (h : queryShape q1.data = queryShape q2.data) :
    (parse q1).1 = (parse q2).1 := by
  show (parse_query q1.data).1 = (parse_query q2.data).1
  rw [parse_query_fst, parse_query_fst, h]

theorem C1_predicate_text_depends_only_on_shape_witness :
    (parse "host=\"alpha\" && tech=\"x&&y\"").1
      = (parse "host=\"beta\" && tech=\"z\"").1 :=
  C1_predicate_text_depends_only_on_shape "host=\"alpha\" && tech=\"x&&y\""
    "host=\"beta\" && tech=\"z\"" (by decide)
